import Mathlib

/-!
Verification of the terraswap router contract
(src/contracts/terraswap_router/src/contract.rs) against its
natural-language specification.

The contract's pure control flow is embedded shallowly:
* `Uint128` amounts become `Nat` with explicit checked arithmetic
  (`checked_sub`, `checked_add` bounded by `2 ^ 128 - 1`).
* Fallible querier calls (tax computation, native swap quote, pair lookup,
  pair simulation, reverse simulation, balance query) become fields of a
  `QuerierEnv` record returning `Except StdError _`; the contract functions
  are parameterized over this environment.
* `Result<T, StdError>` becomes `Except StdError T`; a Rust `.unwrap()` on
  an `Err` is an abnormal abort, modelled by the dedicated `RunResult.abort`
  outcome, distinct from a structured `RunResult.err`.
* The `HashMap<String, bool>` of `assert_operations` becomes an association
  list whose keys are kept duplicate-free by construction.
-/

/-- Errors returned by the embedded contract functions, mirroring
`cosmwasm_std::StdError` as the contract uses it: `generic_err` with a
message string, and the overflow errors produced by `checked_sub` /
`checked_add` on `Uint128`. -/
inductive StdError where
  | genericErr (msg : String)
  | overflowSub (a b : Nat)
  | overflowAdd (a b : Nat)
  deriving DecidableEq, Repr

/-- `Uint128::MAX`. -/
def UINT128_MAX : Nat := 2 ^ 128 - 1

/-- `Uint128::checked_sub`: fails with an overflow error when the
subtrahend exceeds the minuend. -/
def checked_sub (a b : Nat) : Except StdError Nat :=
  if b ≤ a then .ok (a - b) else .error (StdError.overflowSub a b)

/-- `Uint128::checked_add`: fails with an overflow error when the sum
exceeds `Uint128::MAX`. -/
def checked_add (a b : Nat) : Except StdError Nat :=
  if a + b ≤ UINT128_MAX then .ok (a + b) else .error (StdError.overflowAdd a b)

/-- `AssetInfo` from the asset model: a native denomination or a
contract-issued token address. -/
inductive AssetInfo where
  | NativeToken (denom : String)
  | Token (contract_addr : String)
  deriving DecidableEq, Repr

/-- Modelled from the spec: the asset-identifier string used as the key of
the validator's mapping (the `Display` implementation of `AssetInfo` lives
in the `classic_terraswap` package, outside `src/`). A native asset is
identified by its denomination, a token by its contract address. -/
def AssetInfo.to_string : AssetInfo → String
  | .NativeToken denom => denom
  | .Token contract_addr => contract_addr

/-- `SwapOperation` from the router message model: one native-exchange hop
or one AMM hop bound to one of the three backend factories. -/
inductive SwapOperation where
  | NativeSwap (offer_denom ask_denom : String)
  | TerraSwap (offer_asset_info ask_asset_info : AssetInfo)
  | Loop (offer_asset_info ask_asset_info : AssetInfo)
  | Astroport (offer_asset_info ask_asset_info : AssetInfo)
  deriving DecidableEq, Repr

/-- Modelled from the spec: `get_target_asset_info` (defined in the
`classic_terraswap` router package, outside `src/`) returns the hop's ask
asset: the chain's final ask asset type is determined from the last hop. -/
def SwapOperation.get_target_asset_info : SwapOperation → AssetInfo
  | .NativeSwap _ ask_denom => .NativeToken ask_denom
  | .TerraSwap _ ask_asset_info => ask_asset_info
  | .Loop _ ask_asset_info => ask_asset_info
  | .Astroport _ ask_asset_info => ask_asset_info

/-- The router configuration: the three backend factory addresses
(already humanized; address canonicalization is out-of-scope plumbing). -/
structure Config where
  terraswap_factory : String
  loop_factory : String
  astroport_factory : String
  deriving DecidableEq, Repr

/-- The external collaborators the contract queries, as fallible
functions. Fields mirror the querier calls made in `contract.rs`:
`compute_tax amount denom`, `compute_reverse_tax amount denom`,
`query_swap offer_denom offer_amount ask_denom` (the native exchange
quote, returning `receive.amount`), `query_pair_info factory a b`
(returning the pair contract address), `simulation pair offer_info
offer_amount` (the pair's forward quote, returning `return_amount`),
`reverse_simulate pair ask_info ask_amount` (returning `offer_amount`),
and `query_pool asset address` (the balance query). -/
structure QuerierEnv where
  compute_tax : Nat → String → Except StdError Nat
  compute_reverse_tax : Nat → String → Except StdError Nat
  query_swap : String → Nat → String → Except StdError Nat
  query_pair_info : String → AssetInfo → AssetInfo → Except StdError String
  simulation : String → AssetInfo → Nat → Except StdError Nat
  reverse_simulate : String → AssetInfo → Nat → Except StdError Nat
  query_pool : AssetInfo → String → Except StdError Nat

/-- Outcome of a contract call that may, besides returning `Ok` or a
structured `Err`, abort abnormally (a Rust `.unwrap()` on an `Err`, which
panics instead of returning the error). -/
inductive RunResult (α : Type) where
  | ok (a : α)
  | err (e : StdError)
  | abort
  deriving DecidableEq, Repr

/-- `.unwrap()` on a `Result`: an `Err` value aborts abnormally. -/
def unwrapR {α : Type} : Except StdError α → RunResult α
  | .ok a => .ok a
  | .error _ => .abort

/-- The payload of a self-addressed continuation message: the two
`ExecuteMsg` variants the router sends to itself. -/
inductive RouterMsg where
  | executeSwapOperation (operation : SwapOperation) (to_addr : Option String)
      (deadline : Option Nat)
  | assertMinimumReceive (asset_info : AssetInfo)
      (prev_balance minimum_receive : Nat) (receiver : String)
  deriving DecidableEq, Repr

/-- A `CosmosMsg::Wasm(WasmMsg::Execute)` continuation: target contract
address, attached funds (always empty here), and the serialized payload. -/
structure ContMsg where
  contract_addr : String
  funds : List (String × Nat)
  msg : RouterMsg
  deriving DecidableEq, Repr

/-- The message produced by the assertion failure branch of
`assert_minimum_receive`. -/
def assertFailMsg (minium_receive swap_amount : Nat) : String :=
  "assertion failed; minimum receive amount: " ++ toString minium_receive ++
    ", swap amount: " ++ toString swap_amount

/-- `assert_minimum_receive` from `contract.rs`: queries the receiver's
balance, computes the delta over `prev_balance` with `checked_sub`, and
fails when the delta is below `minium_receive`; otherwise returns the
default response, which carries no messages. -/
def assert_minimum_receive (env : QuerierEnv) (asset_info : AssetInfo)
    (prev_balance minium_receive : Nat) (receiver : String) :
    Except StdError (List ContMsg) :=
  match env.query_pool asset_info receiver with
  | .error e => .error e
  | .ok receiver_balance =>
    match checked_sub receiver_balance prev_balance with
    | .error e => .error e
    | .ok swap_amount =>
      if swap_amount < minium_receive then
        .error (StdError.genericErr (assertFailMsg minium_receive swap_amount))
      else
        .ok []

/-- The offer/ask asset pair a hop trades, as destructured at the top of
the loop of `assert_operations`. -/
def op_offer_ask : SwapOperation → AssetInfo × AssetInfo
  | .NativeSwap offer_denom ask_denom =>
      (.NativeToken offer_denom, .NativeToken ask_denom)
  | .TerraSwap offer_asset_info ask_asset_info =>
      (offer_asset_info, ask_asset_info)
  | .Loop offer_asset_info ask_asset_info =>
      (offer_asset_info, ask_asset_info)
  | .Astroport offer_asset_info ask_asset_info =>
      (offer_asset_info, ask_asset_info)

/-- `HashMap::remove` on an association list. -/
def hmRemove (m : List (String × Bool)) (k : String) : List (String × Bool) :=
  m.filter (fun p => p.1 ≠ k)

/-- `HashMap::insert` on an association list, overwriting any previous
binding so keys stay duplicate-free. -/
def hmInsert (m : List (String × Bool)) (k : String) (v : Bool) :
    List (String × Bool) :=
  (k, v) :: hmRemove m k

/-- One iteration of the loop of `assert_operations`: remove the offer
asset's key, insert the ask asset's key with value `true`. -/
def ask_asset_step (m : List (String × Bool)) (operation : SwapOperation) :
    List (String × Bool) :=
  let p := op_offer_ask operation
  hmInsert (hmRemove m p.1.to_string) p.2.to_string true

/-- The `ask_asset_map` built by `assert_operations` over the whole chain,
starting from the empty map. -/
def ask_asset_map (operations : List SwapOperation) : List (String × Bool) :=
  operations.foldl ask_asset_step []

/-- The error message of `assert_operations`. -/
def multipleOutputMsg : String := "invalid operations; multiple output token"

/-- `assert_operations` from `contract.rs`: build the `ask_asset_map` and
fail unless it has exactly one key. -/
def assert_operations (operations : List SwapOperation) :
    Except StdError Unit :=
  if (ask_asset_map operations).length ≠ 1 then
    .error (StdError.genericErr multipleOutputMsg)
  else
    .ok ()

/-- Modelled from the spec: `assert_deadline` (defined in the
`classic_terraswap` util package, outside `src/`) fails with the Expired
error when a deadline is present and the current block time exceeds it. -/
def assert_deadline (current_time : Nat) : Option Nat → Except StdError Unit
  | some deadline =>
      if deadline < current_time then .error (StdError.genericErr "expired")
      else .ok ()
  | none => .ok ()

/-- The error returned by the emptiness checks of the orchestrator and of
both simulators. -/
def emptyOpsMsg : String := "must provide operations"

/-- The per-hop continuation messages built by the `map` inside
`execute_swap_operations`: `idx` is the value of `operation_index` before
the iteration (the code increments it first, so hop `i` of the chain gets
index `i + 1`), and only the hop whose incremented index equals
`operations_len` carries the destination. -/
def hop_messages (contract_address dest : String) (operations_len : Nat) :
    Nat → List SwapOperation → List ContMsg
  | _, [] => []
  | idx, op :: rest =>
    { contract_addr := contract_address, funds := [],
      msg := RouterMsg.executeSwapOperation op
        (if idx + 1 = operations_len then some dest else none) none } ::
      hop_messages contract_address dest operations_len (idx + 1) rest

/-- `execute_swap_operations` from `contract.rs`: deadline check, then
non-emptiness check, then `assert_operations`; resolve the destination to
the sender when absent; emit one self-addressed continuation per hop, the
last one carrying the destination; and when `minimum_receive` is present,
read the destination's balance of the final asset synchronously and append
one `AssertMinimumReceive` continuation recording that snapshot. -/
def execute_swap_operations (env : QuerierEnv) (contract_address : String)
    (block_time : Nat) (sender : String) (operations : List SwapOperation)
    (minimum_receive : Option Nat) (to_addr : Option String)
    (deadline : Option Nat) : Except StdError (List ContMsg) :=
  match assert_deadline block_time deadline with
  | .error e => .error e
  | .ok _ =>
    match operations with
    | [] => .error (StdError.genericErr emptyOpsMsg)
    | op0 :: rest =>
      match assert_operations (op0 :: rest) with
      | .error e => .error e
      | .ok _ =>
        let dest := to_addr.getD sender
        let target_asset_info :=
          ((op0 :: rest).getLast (List.cons_ne_nil op0 rest)).get_target_asset_info
        let messages :=
          hop_messages contract_address dest (op0 :: rest).length 0 (op0 :: rest)
        match minimum_receive with
        | none => .ok messages
        | some minimum_receive =>
          match env.query_pool target_asset_info dest with
          | .error e => .error e
          | .ok receiver_balance =>
            .ok (messages ++
              [{ contract_addr := contract_address, funds := [],
                 msg := RouterMsg.assertMinimumReceive target_asset_info
                   receiver_balance minimum_receive dest }])

/-- `simulate_return_amount` from `contract.rs`: pair lookup, tax
deduction on a native offer amount, forward simulation query, tax
deduction on a native ask output. -/
def simulate_return_amount (env : QuerierEnv) (factory : String)
    (offer_amount : Nat) (offer_asset_info ask_asset_info : AssetInfo) :
    Except StdError Nat :=
  match env.query_pair_info factory offer_asset_info ask_asset_info with
  | .error e => .error e
  | .ok pair_contract =>
    let offerE : Except StdError Nat :=
      match offer_asset_info with
      | .NativeToken denom =>
        match env.compute_tax offer_amount denom with
        | .error e => .error e
        | .ok tax => checked_sub offer_amount tax
      | .Token _ => .ok offer_amount
    match offerE with
    | .error e => .error e
    | .ok offer_amount =>
      match env.simulation pair_contract offer_asset_info offer_amount with
      | .error e => .error e
      | .ok return_amount =>
        match ask_asset_info with
        | .NativeToken denom =>
          match env.compute_tax return_amount denom with
          | .error e => .error e
          | .ok tax => checked_sub return_amount tax
        | .Token _ => .ok return_amount

/-- `reverse_simulate_return_amount` from `contract.rs`: pair lookup,
reverse simulation query, then tax added back on a native offer amount. -/
def reverse_simulate_return_amount (env : QuerierEnv) (factory : String)
    (ask_amount : Nat) (offer_asset_info ask_asset_info : AssetInfo) :
    Except StdError Nat :=
  match env.query_pair_info factory offer_asset_info ask_asset_info with
  | .error e => .error e
  | .ok pair_contract =>
    match env.reverse_simulate pair_contract ask_asset_info ask_amount with
    | .error e => .error e
    | .ok offer_amount =>
      match offer_asset_info with
      | .NativeToken denom =>
        match env.compute_reverse_tax offer_amount denom with
        | .error e => .error e
        | .ok tax => checked_add offer_amount tax
      | .Token _ => .ok offer_amount

/-- The loop of `simulate_swap_operations`, threading `operation_index`
(`idx` is its value before the increment at the top of the iteration) and
the running `offer_amount`. The three AMM arms call
`simulate_return_amount` and `.unwrap()` its result, so a failure there
aborts abnormally instead of returning the error. -/
def simulate_ops_loop (env : QuerierEnv) (config : Config)
    (operations_len : Nat) : Nat → Nat → List SwapOperation → RunResult Nat
  | _, offer_amount, [] => .ok offer_amount
  | idx, offer_amount, op :: rest =>
    match op with
    | .NativeSwap offer_denom ask_denom =>
      let offerE : Except StdError Nat :=
        if idx + 1 = operations_len then
          match env.compute_tax offer_amount offer_denom with
          | .error e => .error e
          | .ok tax => checked_sub offer_amount tax
        else .ok offer_amount
      match offerE with
      | .error e => .err e
      | .ok offer_amount =>
        match env.query_swap offer_denom offer_amount ask_denom with
        | .error e => .err e
        | .ok receive_amount =>
          simulate_ops_loop env config operations_len (idx + 1) receive_amount rest
    | .TerraSwap offer_asset_info ask_asset_info =>
      match simulate_return_amount env config.terraswap_factory offer_amount
          offer_asset_info ask_asset_info with
      | .error _ => .abort
      | .ok amount => simulate_ops_loop env config operations_len (idx + 1) amount rest
    | .Loop offer_asset_info ask_asset_info =>
      match simulate_return_amount env config.loop_factory offer_amount
          offer_asset_info ask_asset_info with
      | .error _ => .abort
      | .ok amount => simulate_ops_loop env config operations_len (idx + 1) amount rest
    | .Astroport offer_asset_info ask_asset_info =>
      match simulate_return_amount env config.astroport_factory offer_amount
          offer_asset_info ask_asset_info with
      | .error _ => .abort
      | .ok amount => simulate_ops_loop env config operations_len (idx + 1) amount rest

/-- `simulate_swap_operations` from `contract.rs`. -/
def simulate_swap_operations (env : QuerierEnv) (config : Config)
    (offer_amount : Nat) (operations : List SwapOperation) : RunResult Nat :=
  if operations.length = 0 then .err (StdError.genericErr emptyOpsMsg)
  else simulate_ops_loop env config operations.length 0 offer_amount operations

/-- The error returned for a native-exchange hop during reverse
simulation. -/
def reverseNativeMsg : String := "reverse simulation of native_swap is not supported yet"

/-- The loop of `reverse_simulate_swap_operations`, applied to the
already-reversed chain. A native-exchange hop returns the structured
unsupported error; the three AMM arms `.unwrap()` the result of
`reverse_simulate_return_amount`. -/
def reverse_ops_loop (env : QuerierEnv) (config : Config) :
    Nat → List SwapOperation → RunResult Nat
  | ask_amount, [] => .ok ask_amount
  | ask_amount, op :: rest =>
    match op with
    | .NativeSwap _ _ => .err (StdError.genericErr reverseNativeMsg)
    | .TerraSwap offer_asset_info ask_asset_info =>
      match reverse_simulate_return_amount env config.terraswap_factory
          ask_amount offer_asset_info ask_asset_info with
      | .error _ => .abort
      | .ok amount => reverse_ops_loop env config amount rest
    | .Loop offer_asset_info ask_asset_info =>
      match reverse_simulate_return_amount env config.loop_factory
          ask_amount offer_asset_info ask_asset_info with
      | .error _ => .abort
      | .ok amount => reverse_ops_loop env config amount rest
    | .Astroport offer_asset_info ask_asset_info =>
      match reverse_simulate_return_amount env config.astroport_factory
          ask_amount offer_asset_info ask_asset_info with
      | .error _ => .abort
      | .ok amount => reverse_ops_loop env config amount rest

/-- `reverse_simulate_swap_operations` from `contract.rs`: walks the chain
in reverse order. -/
def reverse_simulate_swap_operations (env : QuerierEnv) (config : Config)
    (ask_amount : Nat) (operations : List SwapOperation) : RunResult Nat :=
  if operations.length = 0 then .err (StdError.genericErr emptyOpsMsg)
  else reverse_ops_loop env config ask_amount operations.reverse

/-! ### Spec-side definitions

The definitions below follow the specification's wording and are compared
with the embedded contract functions in refinement theorems. -/

/-- The reduction of section 4.1 of the spec, stated over a finite set of
asset-identifier strings: for each hop in order, remove the offer asset's
entry if present, then insert the ask asset's entry. -/
def validate_reduce (operations : List SwapOperation) : Finset String :=
  operations.foldl
    (fun s op =>
      let p := op_offer_ask op
      insert p.2.to_string (s.erase p.1.to_string)) ∅

/-- The enumerated backend tag of the spec's design note: the three AMM
variants differ only in which factory registry they resolve against. -/
inductive BackendTag where
  | terraswap
  | loop
  | astroport
  deriving DecidableEq, Repr

/-- The lookup table from backend tag to factory address. -/
def factory_of (config : Config) : BackendTag → String
  | .terraswap => config.terraswap_factory
  | .loop => config.loop_factory
  | .astroport => config.astroport_factory

/-- The backend tag of an AMM hop; `none` for a native-exchange hop. -/
def SwapOperation.backend_tag : SwapOperation → Option BackendTag
  | .NativeSwap _ _ => none
  | .TerraSwap _ _ => some .terraswap
  | .Loop _ _ => some .loop
  | .Astroport _ _ => some .astroport

/-- Rebuild an AMM hop with the given backend tag, keeping its offer and
ask assets; a native-exchange hop is left unchanged. -/
def retag (t : BackendTag) : SwapOperation → SwapOperation
  | .NativeSwap offer_denom ask_denom => .NativeSwap offer_denom ask_denom
  | .TerraSwap offer_asset_info ask_asset_info =>
    match t with
    | .terraswap => .TerraSwap offer_asset_info ask_asset_info
    | .loop => .Loop offer_asset_info ask_asset_info
    | .astroport => .Astroport offer_asset_info ask_asset_info
  | .Loop offer_asset_info ask_asset_info =>
    match t with
    | .terraswap => .TerraSwap offer_asset_info ask_asset_info
    | .loop => .Loop offer_asset_info ask_asset_info
    | .astroport => .Astroport offer_asset_info ask_asset_info
  | .Astroport offer_asset_info ask_asset_info =>
    match t with
    | .terraswap => .TerraSwap offer_asset_info ask_asset_info
    | .loop => .Loop offer_asset_info ask_asset_info
    | .astroport => .Astroport offer_asset_info ask_asset_info

/-- Replace the backend tag of the hop at position `i` of a chain. -/
def retagAt (t : BackendTag) : Nat → List SwapOperation → List SwapOperation
  | _, [] => []
  | 0, op :: rest => retag t op :: rest
  | n + 1, op :: rest => op :: retagAt t n rest

/-- Spec section 4.2: deduct the transfer tax from an amount when the
asset is a native currency, leave it unchanged otherwise. -/
def deduct_tax_if_native (env : QuerierEnv) (info : AssetInfo) (amount : Nat) :
    Except StdError Nat :=
  match info with
  | .NativeToken denom =>
    match env.compute_tax amount denom with
    | .error e => .error e
    | .ok tax => checked_sub amount tax
  | .Token _ => .ok amount

/-- Spec section 4.2, AMM hop: resolve the trading pair against the
backend's factory; if the offer asset is native, deduct transfer tax from
the offer amount before querying the pair's simulation endpoint; query the
simulated output; if the ask asset is native, deduct transfer tax from the
output amount. -/
def amm_hop_spec (env : QuerierEnv) (factory : String) (offer_amount : Nat)
    (offer_asset ask_asset : AssetInfo) : Except StdError Nat :=
  match env.query_pair_info factory offer_asset ask_asset with
  | .error e => .error e
  | .ok pair =>
    match deduct_tax_if_native env offer_asset offer_amount with
    | .error e => .error e
    | .ok net_offer =>
      match env.simulation pair offer_asset net_offer with
      | .error e => .error e
      | .ok gross_out => deduct_tax_if_native env ask_asset gross_out

/-- Spec section 4.2: the forward simulator, amount threaded through the
hops in order. A native-exchange hop deducts the offer-side tax exactly
when it is the last hop of the chain, then queries the native quote; an
AMM hop delegates to `amm_hop_spec` with the factory looked up from the
hop's backend tag (its failure aborts, as the contract unwraps it). -/
def simulate_forward_spec (env : QuerierEnv) (config : Config) :
    Nat → List SwapOperation → RunResult Nat
  | amount, [] => .ok amount
  | amount, .NativeSwap offer_denom ask_denom :: rest =>
    let adjusted : Except StdError Nat :=
      if rest.isEmpty then deduct_tax_if_native env (.NativeToken offer_denom) amount
      else .ok amount
    match adjusted with
    | .error e => .err e
    | .ok net =>
      match env.query_swap offer_denom net ask_denom with
      | .error e => .err e
      | .ok received => simulate_forward_spec env config received rest
  | amount, op :: rest =>
    match op.backend_tag with
    | none => .abort
    | some t =>
      let p := op_offer_ask op
      match unwrapR (amm_hop_spec env (factory_of config t) amount p.1 p.2) with
      | .ok next => simulate_forward_spec env config next rest
      | .err e => .err e
      | .abort => .abort

/-! ### Concrete environments used to exercise the definitions -/

/-- A querier environment in which every collaborator succeeds: a one
percent transfer tax, the native quote and the pair quotes echo the input
amount, every pair resolves to the address `pair0`, and every balance
query returns `1000`. -/
def qenv0 : QuerierEnv where
  compute_tax := fun amount _ => .ok (amount / 100)
  compute_reverse_tax := fun amount _ => .ok (amount / 100)
  query_swap := fun _ amount _ => .ok amount
  query_pair_info := fun _ _ _ => .ok "pair0"
  simulation := fun _ _ amount => .ok amount
  reverse_simulate := fun _ _ amount => .ok amount
  query_pool := fun _ _ => .ok 1000

/-- `qenv0` with a failing pair lookup: every `query_pair_info` call
returns a structured error. -/
def qenvPairFail : QuerierEnv :=
  { qenv0 with query_pair_info := fun _ _ _ => .error (StdError.genericErr "no pair") }

/-- A concrete router configuration. -/
def cfg0 : Config where
  terraswap_factory := "tsf"
  loop_factory := "lpf"
  astroport_factory := "apf"

/-- The key list of an association-list map. -/
def hmKeys (m : List (String × Bool)) : List String := m.map Prod.fst

/-! ### The minimum-receive assertion -/

/-- C1: given that the receiver's current balance of the asset is
`current`, `assert_minimum_receive` succeeds (returning a response with no
messages) exactly when `current - prev_balance ≥ minium_receive` over the
integers; when `current < prev_balance` it fails with the checked
subtraction's overflow error; and when the delta is a well-defined natural
number below `minium_receive` it fails with the assertion message carrying
the required and actual amounts. -/
theorem assert_minimum_receive_correct (env : QuerierEnv) (asset_info : AssetInfo)
    (prev_balance minium_receive : Nat) (receiver : String) (current : Nat)
    (hq : env.query_pool asset_info receiver = .ok current) :
    (assert_minimum_receive env asset_info prev_balance minium_receive receiver = .ok [] ↔
      (minium_receive : Int) ≤ (current : Int) - (prev_balance : Int)) ∧
    (current < prev_balance →
      assert_minimum_receive env asset_info prev_balance minium_receive receiver =
        .error (StdError.overflowSub current prev_balance)) ∧
    (prev_balance ≤ current → current - prev_balance < minium_receive →
      assert_minimum_receive env asset_info prev_balance minium_receive receiver =
        .error (StdError.genericErr (assertFailMsg minium_receive (current - prev_balance)))) := by
  unfold assert_minimum_receive checked_sub
  rw [hq]
  dsimp only
  by_cases hle : prev_balance ≤ current
  · rw [if_pos hle]
    dsimp only
    by_cases hlt : current - prev_balance < minium_receive
    · rw [if_pos hlt]
      refine ⟨⟨?_, ?_⟩, ?_, ?_⟩
      · intro h
        exact absurd h (by simp)
      · intro h
        exfalso
        omega
      · intro h
        exact absurd h (by omega)
      · intro _ _
        rfl
    · rw [if_neg hlt]
      refine ⟨⟨?_, ?_⟩, ?_, ?_⟩
      · intro _
        omega
      · intro _
        rfl
      · intro h
        exact absurd h (by omega)
      · intro _ h
        exact absurd h hlt
  · rw [if_neg hle]
    dsimp only
    refine ⟨⟨?_, ?_⟩, ?_, ?_⟩
    · intro h
      exact absurd h (by simp)
    · intro h
      exfalso
      omega
    · intro _
      rfl
    · intro h
      exact absurd h hle

/-- Witness for C1 at a concrete balance: with a current balance of 1000
and a prior balance of 900, a minimum of exactly 100 is accepted. -/
theorem assert_minimum_receive_correct_witness :
    qenv0.query_pool (.Token "a") "r" = .ok 1000 ∧
    (assert_minimum_receive qenv0 (.Token "a") 900 100 "r" = .ok [] ↔
      (100 : Int) ≤ (1000 : Int) - (900 : Int)) :=
  ⟨rfl, (assert_minimum_receive_correct qenv0 (.Token "a") 900 100 "r" 1000 rfl).1⟩

/-! ### The operation-chain validator -/

theorem hmKeys_remove (m : List (String × Bool)) (k : String) :
    hmKeys (hmRemove m k) = (hmKeys m).filter (· ≠ k) := by
  induction m with
  | nil => rfl
  | cons p rest ih =>
    by_cases h : p.1 = k
    · simp [hmKeys, hmRemove, h] at ih ⊢
      simpa [hmRemove, hmKeys] using ih
    · simp [hmKeys, hmRemove, h] at ih ⊢
      simpa [hmRemove, hmKeys, h] using ih

theorem hmKeys_step (m : List (String × Bool)) (op : SwapOperation) :
    hmKeys (ask_asset_step m op) =
      (op_offer_ask op).2.to_string ::
        (((hmKeys m).filter (· ≠ (op_offer_ask op).1.to_string)).filter
          (· ≠ (op_offer_ask op).2.to_string)) := by
  show hmKeys (hmInsert (hmRemove m _) _ true) = _
  rw [hmInsert]
  show (_ :: hmRemove (hmRemove m _) _).map Prod.fst = _
  rw [List.map_cons]
  show _ :: hmKeys (hmRemove (hmRemove m _) _) = _
  rw [hmKeys_remove, hmKeys_remove]

theorem hmKeys_step_nodup (m : List (String × Bool)) (op : SwapOperation)
    (h : (hmKeys m).Nodup) : (hmKeys (ask_asset_step m op)).Nodup := by
  rw [hmKeys_step]
  refine List.Nodup.cons ?_ ((h.filter _).filter _)
  intro hmem
  have := List.of_mem_filter hmem
  simp at this

theorem hmKeys_step_toFinset (m : List (String × Bool)) (op : SwapOperation) :
    (hmKeys (ask_asset_step m op)).toFinset =
      insert (op_offer_ask op).2.to_string
        ((hmKeys m).toFinset.erase (op_offer_ask op).1.to_string) := by
  rw [hmKeys_step]
  ext x
  simp only [List.toFinset_cons, Finset.mem_insert, List.mem_toFinset, List.mem_filter,
    Finset.mem_erase, decide_eq_true_eq]
  tauto

theorem fold_keys (ops : List SwapOperation) : ∀ m : List (String × Bool),
    (hmKeys m).Nodup →
    (hmKeys (ops.foldl ask_asset_step m)).Nodup ∧
    (hmKeys (ops.foldl ask_asset_step m)).toFinset =
      ops.foldl
        (fun s op =>
          let p := op_offer_ask op
          insert p.2.to_string (s.erase p.1.to_string)) (hmKeys m).toFinset := by
  induction ops with
  | nil => exact fun m h => ⟨h, rfl⟩
  | cons op rest ih =>
    intro m h
    have h1 := hmKeys_step_nodup m op h
    have h2 := ih (ask_asset_step m op) h1
    refine ⟨h2.1, ?_⟩
    rw [List.foldl_cons, List.foldl_cons, h2.2, hmKeys_step_toFinset]

theorem ask_asset_map_length_eq_card (ops : List SwapOperation) :
    (ask_asset_map ops).length = (validate_reduce ops).card := by
  have h := fold_keys ops [] List.nodup_nil
  unfold ask_asset_map
  rw [show (List.foldl ask_asset_step [] ops).length =
      (hmKeys (List.foldl ask_asset_step [] ops)).length from (List.length_map _ _).symm]
  rw [← List.toFinset_card_of_nodup h.1, h.2]
  rfl

/-- C3: `assert_operations` succeeds exactly when the spec's reduction
(remove the offer asset's key, then insert the ask asset's key, hop by
hop, starting from the empty set) leaves exactly one key, and fails with
the multiple-output error for every other number of remaining keys. -/
theorem assert_operations_iff_reduce (operations : List SwapOperation) :
    assert_operations operations =
      (if (validate_reduce operations).card = 1 then .ok ()
       else .error (StdError.genericErr multipleOutputMsg)) := by
  unfold assert_operations
  rw [ask_asset_map_length_eq_card]
  by_cases h : (validate_reduce operations).card = 1
  · simp [h]
  · simp [h]

/-- C4 counterexample: on the empty chain `assert_operations` does not
fail with the dedicated empty-chain error; it fails with the
multiple-output error, because the loop runs zero times and the empty map
has zero keys. -/
theorem assert_operations_empty_counterexample :
    ¬ (assert_operations [] = .error (StdError.genericErr emptyOpsMsg)) ∧
    assert_operations [] = .error (StdError.genericErr multipleOutputMsg) := by
  constructor
  · intro h
    have h1 : StdError.genericErr multipleOutputMsg = StdError.genericErr emptyOpsMsg :=
      Except.error.inj
        ((rfl : assert_operations [] =
          .error (StdError.genericErr multipleOutputMsg)).symm.trans h)
    exact absurd (StdError.genericErr.inj h1) (by decide)
  · rfl

/-- C4 amended: the empty chain does fail validation, but with the
multiple-output error; the dedicated empty-chain error is raised by
`execute_swap_operations` before the validator runs. -/
theorem assert_operations_empty_amended :
    assert_operations [] = .error (StdError.genericErr multipleOutputMsg) ∧
    (∀ (env : QuerierEnv) (contract_address : String) (block_time : Nat) (sender : String)
      (minimum_receive : Option Nat) (to_addr : Option String),
      execute_swap_operations env contract_address block_time sender [] minimum_receive
        to_addr none = .error (StdError.genericErr emptyOpsMsg)) :=
  ⟨rfl, fun _ _ _ _ _ _ => rfl⟩

theorem op_offer_ask_retag (t : BackendTag) (op : SwapOperation) :
    op_offer_ask (retag t op) = op_offer_ask op := by
  cases op <;> cases t <;> rfl

theorem foldl_step_congr (ops₁ : List SwapOperation) : ∀ (ops₂ : List SwapOperation)
    (m : List (String × Bool)), ops₁.map op_offer_ask = ops₂.map op_offer_ask →
    ops₁.foldl ask_asset_step m = ops₂.foldl ask_asset_step m := by
  induction ops₁ with
  | nil =>
    intro ops₂ m h
    cases ops₂ with
    | nil => rfl
    | cons _ _ => exact absurd h (by simp)
  | cons op rest ih =>
    intro ops₂ m h
    cases ops₂ with
    | nil => exact absurd h (by simp)
    | cons op₂ rest₂ =>
      simp only [List.map_cons, List.cons.injEq] at h
      rw [List.foldl_cons, List.foldl_cons]
      have hstep : ask_asset_step m op = ask_asset_step m op₂ := by
        unfold ask_asset_step
        rw [h.1]
      rw [hstep]
      exact ih rest₂ _ h.2

theorem retagAt_map (t : BackendTag) : ∀ (i : Nat) (ops : List SwapOperation),
    (retagAt t i ops).map op_offer_ask = ops.map op_offer_ask := by
  intro i ops
  induction ops generalizing i with
  | nil => cases i <;> rfl
  | cons op rest ih =>
    cases i with
    | zero => simp [retagAt, op_offer_ask_retag]
    | succ n => simp [retagAt, ih n]

/-- C10: replacing the backend tag of any hop of the chain (keeping its
offer and ask assets) leaves the validator's verdict unchanged: the
reduction only reads each hop's offer and ask asset identifiers. -/
theorem assert_operations_retag_invariant (t : BackendTag) (i : Nat)
    (operations : List SwapOperation) :
    assert_operations (retagAt t i operations) = assert_operations operations := by
  unfold assert_operations ask_asset_map
  rw [foldl_step_congr _ _ _ (retagAt_map t i operations)]

/-! ### The execution orchestrator -/

/-- C9: the deadline check runs first (a past deadline yields the expired
error regardless of the chain, so in particular for the empty chain), the
non-emptiness check runs second (an empty chain with a passing deadline
yields the empty-chain error, not the validator's), and a validator
failure on a passing, non-empty chain is propagated verbatim. Every
failure returns an error, so no continuation message is produced. -/
theorem execute_precondition_order (env : QuerierEnv) (contract_address : String)
    (block_time : Nat) (sender : String) (operations : List SwapOperation)
    (minimum_receive : Option Nat) (to_addr : Option String) :
    (∀ d, d < block_time →
      execute_swap_operations env contract_address block_time sender operations
        minimum_receive to_addr (some d) = .error (StdError.genericErr "expired")) ∧
    (∀ deadline, assert_deadline block_time deadline = .ok () →
      execute_swap_operations env contract_address block_time sender []
        minimum_receive to_addr deadline = .error (StdError.genericErr emptyOpsMsg)) ∧
    (∀ deadline e, assert_deadline block_time deadline = .ok () → operations ≠ [] →
      assert_operations operations = .error e →
      execute_swap_operations env contract_address block_time sender operations
        minimum_receive to_addr deadline = .error e) := by
  refine ⟨?_, ?_, ?_⟩
  · intro d h
    unfold execute_swap_operations assert_deadline
    dsimp only
    rw [if_pos h]
  · intro deadline h
    unfold execute_swap_operations
    rw [h]
  · intro deadline e h hne hops
    cases operations with
    | nil => exact absurd rfl hne
    | cons op0 rest =>
      unfold execute_swap_operations
      rw [h]
      dsimp only
      rw [hops]

/-- Witness for C9: with block time 10 and deadline 3 the call fails
expired, even on the empty chain. -/
theorem execute_precondition_order_witness :
    execute_swap_operations qenv0 "router" 10 "alice" [] none none (some 3) =
      .error (StdError.genericErr "expired") :=
  (execute_precondition_order qenv0 "router" 10 "alice" [] none none).1 3 (by omega)

theorem hop_messages_length (contract_address dest : String) (operations_len : Nat) :
    ∀ (idx : Nat) (ops : List SwapOperation),
    (hop_messages contract_address dest operations_len idx ops).length = ops.length := by
  intro idx ops
  induction ops generalizing idx with
  | nil => rfl
  | cons op rest ih => simp [hop_messages, ih]

theorem hop_messages_get (contract_address dest : String) (operations_len : Nat) :
    ∀ (ops : List SwapOperation) (idx i : Nat) (op : SwapOperation),
    ops.get? i = some op →
    (hop_messages contract_address dest operations_len idx ops).get? i =
      some { contract_addr := contract_address
             funds := []
             msg := RouterMsg.executeSwapOperation op
                      (if idx + i + 1 = operations_len then some dest else none)
                      none } := by
  intro ops
  induction ops with
  | nil => intro idx i op h; simp at h
  | cons op0 rest ih =>
    intro idx i op h
    cases i with
    | zero =>
      simp at h
      subst h
      rfl
    | succ n =>
      simp only [List.get?_cons_succ] at h
      show (hop_messages contract_address dest operations_len (idx + 1) rest).get? n = _
      rw [show idx + (n + 1) + 1 = idx + 1 + n + 1 from by omega]
      exact ih (idx + 1) n op h

/-- C2: when a chain is accepted (deadline passes, chain non-empty with
last hop `lastOp`, validator succeeds, and — when `minimum_receive` is
present — the destination's balance of the final asset reads `bal`),
the emitted list has one self-addressed hop continuation per hop in chain
order, of which only the last carries the resolved destination; and when
`minimum_receive = some m` exactly one trailing assertion continuation is
appended whose required amount is `m` itself and whose recorded previous
balance is the synchronously read snapshot `bal`. -/
theorem execute_swap_operations_messages (env : QuerierEnv) (contract_address : String)
    (block_time : Nat) (sender : String) (operations : List SwapOperation)
    (minimum_receive : Option Nat) (to_addr : Option String) (deadline : Option Nat)
    (lastOp : SwapOperation) (bal : Nat)
    (hlast : operations.getLast? = some lastOp)
    (hdl : assert_deadline block_time deadline = .ok ())
    (hval : assert_operations operations = .ok ())
    (hq : minimum_receive.isSome = true →
      env.query_pool lastOp.get_target_asset_info (to_addr.getD sender) = .ok bal) :
    ∃ msgs,
      execute_swap_operations env contract_address block_time sender operations
          minimum_receive to_addr deadline = .ok msgs ∧
      msgs.length = operations.length + (if minimum_receive.isSome then 1 else 0) ∧
      (∀ i op, operations.get? i = some op →
        msgs.get? i =
          some { contract_addr := contract_address
                 funds := []
                 msg := RouterMsg.executeSwapOperation op
                          (if i + 1 = operations.length then some (to_addr.getD sender)
                           else none)
                          none }) ∧
      (∀ m, minimum_receive = some m →
        msgs.get? operations.length =
          some { contract_addr := contract_address
                 funds := []
                 msg := RouterMsg.assertMinimumReceive lastOp.get_target_asset_info bal m
                          (to_addr.getD sender) }) := by
  cases operations with
  | nil => simp at hlast
  | cons op0 rest =>
    have hlast' : (op0 :: rest).getLast (List.cons_ne_nil op0 rest) = lastOp := by
      have h := List.getLast?_eq_getLast (op0 :: rest) (List.cons_ne_nil op0 rest)
      rw [h] at hlast
      exact Option.some.inj hlast
    unfold execute_swap_operations
    rw [hdl]
    dsimp only
    rw [hval]
    dsimp only
    rw [hlast']
    cases minimum_receive with
    | none =>
      refine ⟨_, rfl, ?_, ?_, ?_⟩
      · simp [hop_messages_length]
      · intro i op h
        have hg := hop_messages_get contract_address (to_addr.getD sender)
          (op0 :: rest).length (op0 :: rest) 0 i op h
        rw [show 0 + i + 1 = i + 1 from by omega] at hg
        exact hg
      · intro m hm
        cases hm
    | some m =>
      rw [hq rfl]
      refine ⟨_, rfl, ?_, ?_, ?_⟩
      · simp [hop_messages_length]
      · intro i op h
        have hlt : i < (op0 :: rest).length := (List.get?_eq_some.mp h).1
        rw [List.get?_append (by rw [hop_messages_length]; exact hlt)]
        have hg := hop_messages_get contract_address (to_addr.getD sender)
          (op0 :: rest).length (op0 :: rest) 0 i op h
        rw [show 0 + i + 1 = i + 1 from by omega] at hg
        exact hg
      · intro m' hm
        have hm' : m = m' := Option.some.inj hm
        subst hm'
        have hc := List.get?_concat_length
          (hop_messages contract_address (to_addr.getD sender) (op0 :: rest).length 0
            (op0 :: rest))
          { contract_addr := contract_address
            funds := []
            msg := RouterMsg.assertMinimumReceive lastOp.get_target_asset_info bal m
                     (to_addr.getD sender) }
        rw [hop_messages_length] at hc
        exact hc

/-- Witness for C2 on a concrete one-hop chain with a minimum of 5: the
hop continuation carries the destination and the appended assertion
records the snapshot balance 1000 and the exact minimum 5. -/
theorem execute_swap_operations_messages_witness :
    ∃ msgs,
      execute_swap_operations qenv0 "router" 10 "alice"
          [SwapOperation.TerraSwap (.Token "a") (.NativeToken "uluna")] (some 5) none none =
        .ok msgs ∧
      msgs.length = 2 ∧
      (∀ i op,
        [SwapOperation.TerraSwap (.Token "a") (.NativeToken "uluna")].get? i = some op →
        msgs.get? i =
          some { contract_addr := "router"
                 funds := []
                 msg := RouterMsg.executeSwapOperation op
                          (if i + 1 = 1 then some "alice" else none)
                          none }) ∧
      (∀ m, (some 5 : Option Nat) = some m →
        msgs.get? 1 =
          some { contract_addr := "router"
                 funds := []
                 msg := RouterMsg.assertMinimumReceive (.NativeToken "uluna") 1000 m
                          "alice" }) :=
  execute_swap_operations_messages qenv0 "router" 10 "alice"
    [SwapOperation.TerraSwap (.Token "a") (.NativeToken "uluna")] (some 5) none none
    (SwapOperation.TerraSwap (.Token "a") (.NativeToken "uluna")) 1000 rfl rfl rfl
    (fun _ => rfl)

/-! ### The forward simulator -/

theorem simulate_ops_loop_native (env : QuerierEnv) (config : Config)
    (len idx amount : Nat) (od ad : String) (rest : List SwapOperation) :
    simulate_ops_loop env config len idx amount (.NativeSwap od ad :: rest) =
      (match (if idx + 1 = len then
                match env.compute_tax amount od with
                | .error e => .error e
                | .ok tax => checked_sub amount tax
              else .ok amount : Except StdError Nat) with
       | .error e => .err e
       | .ok net =>
         match env.query_swap od net ad with
         | .error e => .err e
         | .ok recv => simulate_ops_loop env config len (idx + 1) recv rest) := rfl

theorem simulate_ops_loop_ts (env : QuerierEnv) (config : Config)
    (len idx amount : Nat) (o a : AssetInfo) (rest : List SwapOperation) :
    simulate_ops_loop env config len idx amount (.TerraSwap o a :: rest) =
      (match simulate_return_amount env config.terraswap_factory amount o a with
       | .error _ => .abort
       | .ok r => simulate_ops_loop env config len (idx + 1) r rest) := rfl

theorem simulate_ops_loop_lp (env : QuerierEnv) (config : Config)
    (len idx amount : Nat) (o a : AssetInfo) (rest : List SwapOperation) :
    simulate_ops_loop env config len idx amount (.Loop o a :: rest) =
      (match simulate_return_amount env config.loop_factory amount o a with
       | .error _ => .abort
       | .ok r => simulate_ops_loop env config len (idx + 1) r rest) := rfl

theorem simulate_ops_loop_ap (env : QuerierEnv) (config : Config)
    (len idx amount : Nat) (o a : AssetInfo) (rest : List SwapOperation) :
    simulate_ops_loop env config len idx amount (.Astroport o a :: rest) =
      (match simulate_return_amount env config.astroport_factory amount o a with
       | .error _ => .abort
       | .ok r => simulate_ops_loop env config len (idx + 1) r rest) := rfl

theorem simulate_forward_spec_native (env : QuerierEnv) (config : Config)
    (amount : Nat) (od ad : String) (rest : List SwapOperation) :
    simulate_forward_spec env config amount (.NativeSwap od ad :: rest) =
      (match (if rest.isEmpty then deduct_tax_if_native env (.NativeToken od) amount
              else .ok amount : Except StdError Nat) with
       | .error e => .err e
       | .ok net =>
         match env.query_swap od net ad with
         | .error e => .err e
         | .ok received => simulate_forward_spec env config received rest) := rfl

theorem simulate_forward_spec_ts (env : QuerierEnv) (config : Config)
    (amount : Nat) (o a : AssetInfo) (rest : List SwapOperation) :
    simulate_forward_spec env config amount (.TerraSwap o a :: rest) =
      (match unwrapR (amm_hop_spec env config.terraswap_factory amount o a) with
       | .ok next => simulate_forward_spec env config next rest
       | .err e => .err e
       | .abort => .abort) := rfl

theorem simulate_forward_spec_lp (env : QuerierEnv) (config : Config)
    (amount : Nat) (o a : AssetInfo) (rest : List SwapOperation) :
    simulate_forward_spec env config amount (.Loop o a :: rest) =
      (match unwrapR (amm_hop_spec env config.loop_factory amount o a) with
       | .ok next => simulate_forward_spec env config next rest
       | .err e => .err e
       | .abort => .abort) := rfl

theorem simulate_forward_spec_ap (env : QuerierEnv) (config : Config)
    (amount : Nat) (o a : AssetInfo) (rest : List SwapOperation) :
    simulate_forward_spec env config amount (.Astroport o a :: rest) =
      (match unwrapR (amm_hop_spec env config.astroport_factory amount o a) with
       | .ok next => simulate_forward_spec env config next rest
       | .err e => .err e
       | .abort => .abort) := rfl

theorem simulate_return_amount_eq_spec (env : QuerierEnv) (factory : String)
    (offer_amount : Nat) (offer_asset_info ask_asset_info : AssetInfo) :
    simulate_return_amount env factory offer_amount offer_asset_info ask_asset_info =
      amm_hop_spec env factory offer_amount offer_asset_info ask_asset_info := by
  cases offer_asset_info <;> cases ask_asset_info <;> rfl

theorem simulate_ops_loop_eq_spec (env : QuerierEnv) (config : Config) :
    ∀ (ops : List SwapOperation) (idx amount : Nat),
    simulate_ops_loop env config (idx + ops.length) idx amount ops =
      simulate_forward_spec env config amount ops := by
  intro ops
  induction ops with
  | nil => intro idx amount; rfl
  | cons op rest ih =>
    intro idx amount
    have hlen : idx + (op :: rest).length = (idx + 1) + rest.length := by
      simp only [List.length_cons]
      omega
    cases op with
    | NativeSwap offer_denom ask_denom =>
      rw [simulate_ops_loop_native, simulate_forward_spec_native]
      have hcond : (idx + 1 = idx + (.NativeSwap offer_denom ask_denom :: rest).length)
          ↔ rest.isEmpty = true := by
        cases rest <;> simp [List.length_cons]
      by_cases hr : rest.isEmpty = true
      · rw [if_pos (hcond.mpr hr), if_pos hr]
        cases henv : (match env.compute_tax amount offer_denom with
          | .error e => .error e
          | .ok tax => checked_sub amount tax : Except StdError Nat) with
        | error e => rw [show deduct_tax_if_native env (.NativeToken offer_denom) amount =
            .error e from henv]
        | ok net =>
          rw [show deduct_tax_if_native env (.NativeToken offer_denom) amount =
            .ok net from henv]
          dsimp only
          cases hq : env.query_swap offer_denom net ask_denom with
          | error e => rfl
          | ok received =>
            dsimp only
            rw [hlen]
            exact ih (idx + 1) received
      · rw [if_neg fun h => hr (hcond.mp h), if_neg hr]
        dsimp only
        cases hq : env.query_swap offer_denom amount ask_denom with
        | error e => rfl
        | ok received =>
          dsimp only
          rw [hlen]
          exact ih (idx + 1) received
    | TerraSwap o a =>
      rw [simulate_ops_loop_ts, simulate_forward_spec_ts, ← simulate_return_amount_eq_spec]
      cases hs : simulate_return_amount env config.terraswap_factory amount o a with
      | error e => rfl
      | ok r =>
        dsimp only [unwrapR]
        rw [hlen]
        exact ih (idx + 1) r
    | Loop o a =>
      rw [simulate_ops_loop_lp, simulate_forward_spec_lp, ← simulate_return_amount_eq_spec]
      cases hs : simulate_return_amount env config.loop_factory amount o a with
      | error e => rfl
      | ok r =>
        dsimp only [unwrapR]
        rw [hlen]
        exact ih (idx + 1) r
    | Astroport o a =>
      rw [simulate_ops_loop_ap, simulate_forward_spec_ap, ← simulate_return_amount_eq_spec]
      cases hs : simulate_return_amount env config.astroport_factory amount o a with
      | error e => rfl
      | ok r =>
        dsimp only [unwrapR]
        rw [hlen]
        exact ih (idx + 1) r

/-- C5: on every non-empty chain the contract's forward simulation agrees
with the spec's description of the tax-adjustment points: a
native-exchange hop deducts the offer-side tax exactly when it is the last
hop (before the native quote is queried), and an AMM hop deducts tax from
the offer amount before the pair simulation exactly when the offer asset
is native and from the simulated output exactly when the ask asset is
native (`amm_hop_spec` / `simulate_forward_spec` are the spec-side
definitions). -/
theorem simulate_swap_operations_eq_spec (env : QuerierEnv) (config : Config)
    (offer_amount : Nat) (operations : List SwapOperation) (hne : operations ≠ []) :
    simulate_swap_operations env config offer_amount operations =
      simulate_forward_spec env config offer_amount operations := by
  unfold simulate_swap_operations
  rw [if_neg (by simpa using hne)]
  have h := simulate_ops_loop_eq_spec env config operations 0 offer_amount
  rw [Nat.zero_add] at h
  exact h

/-- Witness for C5 on a concrete single native hop. -/
theorem simulate_swap_operations_eq_spec_witness :
    ([SwapOperation.NativeSwap "uusd" "uluna"] ≠ ([] : List SwapOperation)) ∧
    simulate_swap_operations qenv0 cfg0 1000 [SwapOperation.NativeSwap "uusd" "uluna"] =
      simulate_forward_spec qenv0 cfg0 1000 [SwapOperation.NativeSwap "uusd" "uluna"] :=
  ⟨by simp, simulate_swap_operations_eq_spec qenv0 cfg0 1000
    [SwapOperation.NativeSwap "uusd" "uluna"] (by simp)⟩

/-! ### The reverse simulator -/

theorem reverse_ops_loop_ts (env : QuerierEnv) (config : Config)
    (amount : Nat) (o a : AssetInfo) (rest : List SwapOperation) :
    reverse_ops_loop env config amount (.TerraSwap o a :: rest) =
      (match reverse_simulate_return_amount env config.terraswap_factory amount o a with
       | .error _ => .abort
       | .ok r => reverse_ops_loop env config r rest) := rfl

theorem reverse_ops_loop_lp (env : QuerierEnv) (config : Config)
    (amount : Nat) (o a : AssetInfo) (rest : List SwapOperation) :
    reverse_ops_loop env config amount (.Loop o a :: rest) =
      (match reverse_simulate_return_amount env config.loop_factory amount o a with
       | .error _ => .abort
       | .ok r => reverse_ops_loop env config r rest) := rfl

theorem reverse_ops_loop_ap (env : QuerierEnv) (config : Config)
    (amount : Nat) (o a : AssetInfo) (rest : List SwapOperation) :
    reverse_ops_loop env config amount (.Astroport o a :: rest) =
      (match reverse_simulate_return_amount env config.astroport_factory amount o a with
       | .error _ => .abort
       | .ok r => reverse_ops_loop env config r rest) := rfl

theorem reverse_ops_loop_append (env : QuerierEnv) (config : Config) :
    ∀ (l₁ l₂ : List SwapOperation) (amount : Nat),
    reverse_ops_loop env config amount (l₁ ++ l₂) =
      (match reverse_ops_loop env config amount l₁ with
       | .ok a => reverse_ops_loop env config a l₂
       | .err e => .err e
       | .abort => .abort) := by
  intro l₁
  induction l₁ with
  | nil => intro l₂ amount; rfl
  | cons op rest ih =>
    intro l₂ amount
    cases op with
    | NativeSwap od ad => rfl
    | TerraSwap o a =>
      rw [List.cons_append, reverse_ops_loop_ts, reverse_ops_loop_ts]
      cases reverse_simulate_return_amount env config.terraswap_factory amount o a with
      | error e => rfl
      | ok r => exact ih l₂ r
    | Loop o a =>
      rw [List.cons_append, reverse_ops_loop_lp, reverse_ops_loop_lp]
      cases reverse_simulate_return_amount env config.loop_factory amount o a with
      | error e => rfl
      | ok r => exact ih l₂ r
    | Astroport o a =>
      rw [List.cons_append, reverse_ops_loop_ap, reverse_ops_loop_ap]
      cases reverse_simulate_return_amount env config.astroport_factory amount o a with
      | error e => rfl
      | ok r => exact ih l₂ r

/-- C6: whenever the reversed traversal reaches a native-exchange hop —
that is, every hop after it in chain order was processed to an amount `a`
— the whole reverse simulation fails with the unsupported-reverse-native
error, for every prefix `pre` before that hop. -/
theorem reverse_simulate_native_unsupported (env : QuerierEnv) (config : Config)
    (ask_amount : Nat) (pre post : List SwapOperation) (offer_denom ask_denom : String)
    (a : Nat) (hpost : reverse_ops_loop env config ask_amount post.reverse = .ok a) :
    reverse_simulate_swap_operations env config ask_amount
        (pre ++ SwapOperation.NativeSwap offer_denom ask_denom :: post) =
      .err (StdError.genericErr reverseNativeMsg) := by
  unfold reverse_simulate_swap_operations
  rw [if_neg (by simp)]
  rw [show (pre ++ SwapOperation.NativeSwap offer_denom ask_denom :: post).reverse =
      post.reverse ++ (SwapOperation.NativeSwap offer_denom ask_denom :: pre.reverse) from by
    simp]
  rw [reverse_ops_loop_append, hpost]
  rfl

/-- Witness for C6: a chain consisting of a single native hop. -/
theorem reverse_simulate_native_unsupported_witness :
    reverse_ops_loop qenv0 cfg0 7 ([] : List SwapOperation).reverse = .ok 7 ∧
    reverse_simulate_swap_operations qenv0 cfg0 7
        ([] ++ SwapOperation.NativeSwap "uusd" "uluna" :: []) =
      .err (StdError.genericErr reverseNativeMsg) :=
  ⟨rfl, reverse_simulate_native_unsupported qenv0 cfg0 7 [] [] "uusd" "uluna" 7 rfl⟩

/-- C7 (code bug): a failing pair lookup inside an AMM hop is unwrapped by
the contract, so both the forward and the reverse simulation end in an
abnormal abort rather than returning the collaborator's structured error. -/
theorem backend_query_failure_aborts :
    simulate_swap_operations qenvPairFail cfg0 100
      [.TerraSwap (.Token "a") (.Token "b")] = .abort ∧
    reverse_simulate_swap_operations qenvPairFail cfg0 100
      [.TerraSwap (.Token "a") (.Token "b")] = .abort ∧
    qenvPairFail.query_pair_info cfg0.terraswap_factory (.Token "a") (.Token "b") =
      .error (StdError.genericErr "no pair") :=
  ⟨rfl, rfl, rfl⟩

/-- C8: for an AMM hop processed by reverse simulation, when the offer
asset is native the reverse-tax collaborator's result on the backend's
required offer amount is added to it (through checked addition), and when
the offer asset is a contract token the backend's required offer amount is
passed through unchanged. -/
theorem reverse_simulate_return_amount_tax (env : QuerierEnv) (factory : String)
    (ask_amount : Nat) (ask_asset_info : AssetInfo) (denom contract_addr pair : String)
    (r t : Nat) :
    (env.query_pair_info factory (.NativeToken denom) ask_asset_info = .ok pair →
      env.reverse_simulate pair ask_asset_info ask_amount = .ok r →
      env.compute_reverse_tax r denom = .ok t →
      r + t ≤ UINT128_MAX →
      reverse_simulate_return_amount env factory ask_amount (.NativeToken denom)
        ask_asset_info = .ok (r + t)) ∧
    (env.query_pair_info factory (.Token contract_addr) ask_asset_info = .ok pair →
      env.reverse_simulate pair ask_asset_info ask_amount = .ok r →
      reverse_simulate_return_amount env factory ask_amount (.Token contract_addr)
        ask_asset_info = .ok r) := by
  constructor
  · intro h1 h2 h3 h4
    unfold reverse_simulate_return_amount
    rw [h1]
    dsimp only
    rw [h2]
    dsimp only
    rw [h3]
    dsimp only
    unfold checked_add
    rw [if_pos h4]
  · intro h1 h2
    unfold reverse_simulate_return_amount
    rw [h1]
    dsimp only
    rw [h2]

/-- Witness for C8: a native offer of 500 with a 1 percent reverse tax
comes back as 505; a token offer comes back unchanged. -/
theorem reverse_simulate_return_amount_tax_witness :
    reverse_simulate_return_amount qenv0 "f" 500 (.NativeToken "uluna") (.Token "b") =
      .ok 505 ∧
    reverse_simulate_return_amount qenv0 "f" 500 (.Token "x") (.Token "b") = .ok 500 :=
  ⟨(reverse_simulate_return_amount_tax qenv0 "f" 500 (.Token "b") "uluna" "x" "pair0"
      500 5).1 rfl rfl rfl (by norm_num [UINT128_MAX]),
   (reverse_simulate_return_amount_tax qenv0 "f" 500 (.Token "b") "uluna" "x" "pair0"
      500 5).2 rfl rfl⟩
